import Mathlib

/-!
Verification of the crashmapqld web server (src/main.py).

The program loads a crash-location CSV into a pandas DataFrame, filters it to
the rows whose `Crash_Severity` column equals `'Fatal'`, stores that filtered
frame in the module-level variable `fatal`, and on each `/crashmap` request
builds a folium map holding two base tile layers, a marker layer, a clustered
marker layer, a heat-map layer and a layer control.

The shallow embedding below models a DataFrame as a `List CrashRecord`
(pandas row order is list order), folium objects as plain Lean structures,
and Python exceptions (subscripting the unset `None` dataset) via `Except`.
Coordinates and opacities are embedded as exact rationals: the program never
computes with them, it only copies them from the dataset into layer objects.
-/

namespace CrashMap

/-- One row of the crash dataset, with the columns src/main.py reads:
`Crash_Latitude_GDA94`, `Crash_Longitude_GDA94`, `Count_Casualty_Fatality`,
`Crash_Nature`, `Crash_Type`, `Crash_Severity`, and the `Loc_Post_Code`
column that `load_crash_data` forces to string dtype. -/
structure CrashRecord where
  Crash_Latitude_GDA94 : ℚ
  Crash_Longitude_GDA94 : ℚ
  Count_Casualty_Fatality : ℕ
  Crash_Nature : String
  Crash_Type : String
  Crash_Severity : String
  Loc_Post_Code : String
  deriving DecidableEq, Repr

/-- The module-level variable `fatal` (src/main.py line 19): `fatal = None`.
It holds `none` until `load_crash_data` has run. -/
def fatal : Option (List CrashRecord) := none

/-- Embedding of the filtering step of `load_crash_data` (src/main.py line
276): `fatal = crashes[crashes["Crash_Severity"] == 'Fatal']`.  Pandas
boolean-mask selection keeps exactly the rows whose column value satisfies
the mask, in their original order, which on the list model is `List.filter`. -/
def load_crash_data (crashes : List CrashRecord) : List CrashRecord :=
  crashes.filter (fun r => r.Crash_Severity == "Fatal")

/-- Embedding of `folium.CircleMarker` with the keyword arguments that
`add_markers` / `add_clusters` pass (src/main.py 84-94 and 140-150). -/
structure CircleMarker where
  location : ℚ × ℚ
  radius : ℕ
  color : String
  fill : Bool
  fill_color : String
  fillOpacity : ℚ
  opacity : ℚ
  tooltip : String
  popup : String
  deriving DecidableEq, Repr

/-- Embedding of `folium.FeatureGroup(name=..., show=...)` plus the markers added to it
(`show` is a Lean keyword, embedded as `show_`). -/
structure FeatureGroup where
  name : String
  show_ : Bool
  markers : List CircleMarker
  deriving DecidableEq, Repr

/-- Embedding of `folium.plugins.MarkerCluster(name=..., show=..., control=...)` plus the
markers added to it. -/
structure MarkerCluster where
  name : String
  show_ : Bool
  control : Bool
  markers : List CircleMarker
  deriving DecidableEq, Repr

/-- Embedding of `folium.plugins.HeatMap(data=..., name=..., show=..., control=...,
min_opacity=...)`. -/
structure HeatMap where
  data : List (ℚ × ℚ)
  name : String
  show_ : Bool
  control : Bool
  min_opacity : ℚ
  deriving DecidableEq, Repr

/-- Embedding of `folium.TileLayer(tiles=..., name=..., show=...)`. -/
structure TileLayer where
  tiles : String
  name : String
  show_ : Bool
  deriving DecidableEq, Repr

/-- Embedding of `folium.LayerControl()` (no arguments are passed in src/main.py 223). -/
structure LayerControl where
  deriving DecidableEq, Repr

/-- A child element that `.add_to(folium_map)` attaches to the map. -/
inductive Layer where
  | tile (t : TileLayer)
  | featureGroup (fg : FeatureGroup)
  | markerCluster (mc : MarkerCluster)
  | heatMap (hm : HeatMap)
  deriving DecidableEq, Repr

/-- Embedding of a `folium.Map` with the constructor arguments used at
src/main.py 196-203, plus its ordered children: layers (tile layers and
data layers, in `.add_to` order) and controls. -/
structure FoliumMap where
  tiles : Option String
  location : ℚ × ℚ
  zoom_start : ℕ
  width : String
  height : String
  control_scale : Bool
  layers : List Layer
  controls : List LayerControl
  deriving DecidableEq, Repr

/-- Semantics of `layer.add_to(folium_map)`: appends the child to the map, in call order. -/
def add_layer (folium_map : FoliumMap) (l : Layer) : FoliumMap :=
  { folium_map with layers := folium_map.layers ++ [l] }

/-- Result of subscripting the module-level `fatal` with a column name
(`fatal['Crash_Latitude_GDA94']` etc., src/main.py 65, 122, 37): while
`fatal` is still `None` this raises a TypeError; once loaded it yields the
DataFrame. -/
def subscript_fatal (fatal_df : Option (List CrashRecord)) :
    Except String (List CrashRecord) :=
  match fatal_df with
  | none => Except.error "TypeError: NoneType object is not subscriptable"
  | some df => Except.ok df

/-- The five column lists that `add_markers` / `add_clusters` extract from
the `fatal` DataFrame (src/main.py 65-69, 122-126) and then iterate with
`zip(lat, lng, dead_count, crash_nature, crash_type)` (lines 80-82,
137-139). -/
def column_zip (df : List CrashRecord) : List (ℚ × ℚ × ℕ × String × String) :=
  (df.map fun r => r.Crash_Latitude_GDA94).zip
    ((df.map fun r => r.Crash_Longitude_GDA94).zip
      ((df.map fun r => r.Count_Casualty_Fatality).zip
        ((df.map fun r => r.Crash_Nature).zip
          (df.map fun r => r.Crash_Type))))

/-- The `fatal_fg` FeatureGroup built by `add_markers` (src/main.py 75-96):
`folium.FeatureGroup(name='Fatal Crashes', show=True)`, then the loop adds
one `folium.CircleMarker` per zipped row, in order, with
`FATAL_MARKER_SIZE = 10` and `FATAL_MARKER_FILL_OPACITY = 0.25`; the
tooltip is the f-string `f'{marker_dc} Dead'` and the popup is the crash
nature.  The loop also binds `marker_ct` (the `Crash_Type` column) but
never uses it. -/
def add_markers_fg (df : List CrashRecord) : FeatureGroup :=
  { name := "Fatal Crashes"
    show_ := true
    markers := (column_zip df).map
      fun (marker_y, marker_x, marker_dc, marker_cn, _marker_ct) =>
        { location := (marker_y, marker_x)
          radius := 10
          color := "red"
          fill := true
          fill_color := "red"
          fillOpacity := 0.25
          opacity := 0.25
          tooltip := toString marker_dc ++ " Dead"
          popup := marker_cn } }

/-- Embedding of `add_markers` (src/main.py 50-101): reads the columns of the global
`fatal` (a TypeError if it is still `None`), builds `fatal_fg` and adds it
to the map. -/
def add_markers (fatal_df : Option (List CrashRecord)) (folium_map : FoliumMap) :
    Except String FoliumMap :=
  match subscript_fatal fatal_df with
  | Except.error e => Except.error e
  | Except.ok df =>
      Except.ok (add_layer folium_map (Layer.featureGroup (add_markers_fg df)))

/-- The `clusters` MarkerCluster built by `add_clusters` (src/main.py
131-153): `MarkerCluster(name='Clustered Markers', show=False,
control=True)`, then the loop adds one `folium.CircleMarker` per zipped
row with the same keyword arguments as in `add_markers` (transcribed
separately from lines 140-150, since the source duplicates the block). -/
def add_clusters_cluster (df : List CrashRecord) : MarkerCluster :=
  { name := "Clustered Markers"
    show_ := false
    control := true
    markers := (column_zip df).map
      fun (marker_y, marker_x, marker_dc, marker_cn, _marker_ct) =>
        { location := (marker_y, marker_x)
          radius := 10
          color := "red"
          fill := true
          fill_color := "red"
          fillOpacity := 0.25
          opacity := 0.25
          tooltip := toString marker_dc ++ " Dead"
          popup := marker_cn } }

/-- Embedding of `add_clusters` (src/main.py 107-158): reads the columns of the global
`fatal`, builds `clusters` and adds it to the map. -/
def add_clusters (fatal_df : Option (List CrashRecord)) (folium_map : FoliumMap) :
    Except String FoliumMap :=
  match subscript_fatal fatal_df with
  | Except.error e => Except.error e
  | Except.ok df =>
      Except.ok (add_layer folium_map (Layer.markerCluster (add_clusters_cluster df)))

/-- The HeatMap layer built by `add_heat_map` (src/main.py 36-44):
`heat_in = [[y, x] for y, x in zip(lat, lng)]`, then `HeatMap(data=heat_in,
name='Heat Map', show=False, control=True, min_opacity=0.5)`. -/
def add_heat_map_layer (df : List CrashRecord) : HeatMap :=
  { data := ((df.map fun r => r.Crash_Latitude_GDA94).zip
      (df.map fun r => r.Crash_Longitude_GDA94)).map fun (y, x) => (y, x)
    name := "Heat Map"
    show_ := false
    control := true
    min_opacity := 0.5 }

/-- Embedding of `add_heat_map` (src/main.py 22-44): reads the coordinate columns of the
global `fatal` and adds the heat-map layer to the map. -/
def add_heat_map (fatal_df : Option (List CrashRecord)) (folium_map : FoliumMap) :
    Except String FoliumMap :=
  match subscript_fatal fatal_df with
  | Except.error e => Except.error e
  | Except.ok df =>
      Except.ok (add_layer folium_map (Layer.heatMap (add_heat_map_layer df)))

/-- The `/crashmap` view (src/main.py 190-252), up to the composed map: a
`folium.Map(tiles=None, location=(-26.52, 153.09), zoom_start=13,
width='80%', height='80%', control_scale=True)`, two base `TileLayer`s,
then `add_markers`, `add_clusters`, `add_heat_map` on the global `fatal`,
then one `LayerControl`.  The subsequent HTML rendering only serializes
this structure. -/
def crashmap (fatal_df : Option (List CrashRecord)) : Except String FoliumMap :=
  let start_coords : ℚ × ℚ := (-26.52, 153.09)
  let folium_map : FoliumMap :=
    { tiles := none
      location := start_coords
      zoom_start := 13
      width := "80%"
      height := "80%"
      control_scale := true
      layers := []
      controls := [] }
  let folium_map := add_layer folium_map
    (Layer.tile { tiles := "OpenStreetMap", name := "Open Street Map", show_ := true })
  let folium_map := add_layer folium_map
    (Layer.tile { tiles := "stamentoner", name := "Black/White Map", show_ := false })
  match add_markers fatal_df folium_map with
  | Except.error e => Except.error e
  | Except.ok folium_map =>
      match add_clusters fatal_df folium_map with
      | Except.error e => Except.error e
      | Except.ok folium_map =>
          match add_heat_map fatal_df folium_map with
          | Except.error e => Except.error e
          | Except.ok folium_map =>
              Except.ok { folium_map with
                controls := folium_map.controls ++ [LayerControl.mk] }

/-- The `/_ah/warmup` view (src/main.py 181-187): calls `load_crash_data()`
(which replaces the global `fatal` with the filtered dataset) and falls off
the end of the function, so its Flask return value is Python `None`.
First component: the new value of the global `fatal`; second component:
the view return value. -/
def warmup (crashes : List CrashRecord) :
    Option (List CrashRecord) × Option String :=
  (some (load_crash_data crashes), none)

/-- HTTP status Flask derives from a view return value: a string becomes
the body of a 200 response; a view that returns `None` makes Flask raise
TypeError (the view did not return a valid response), which the framework
reports as a 500 Internal Server Error. -/
def flask_status (rv : Option String) : ℕ :=
  match rv with
  | some _ => 200
  | none => 500

/-- The base tile layers of a composed map, in attachment order. -/
def base_tile_layers (m : FoliumMap) : List TileLayer :=
  m.layers.filterMap fun l =>
    match l with
    | Layer.tile t => some t
    | _ => none

/-- The kinds of the non-tile (data) layers of a composed map, in
attachment order. -/
def data_layer_kinds (m : FoliumMap) : List String :=
  m.layers.filterMap fun l =>
    match l with
    | Layer.tile _ => none
    | Layer.featureGroup _ => some "marker"
    | Layer.markerCluster _ => some "cluster"
    | Layer.heatMap _ => some "heat"

/-- Column dtype as seen by `pd.read_csv`: either an explicit `str`
constraint or default pandas type inference. -/
inductive Dtype where
  | str
  | inferred
  deriving DecidableEq, Repr

/-- A parsed CSV cell: kept as text, or reinterpreted as an integer. -/
inductive Cell where
  | text (v : String)
  | int (v : ℤ)
  deriving DecidableEq, Repr

/-- Model of pandas numeric inference on one CSV field: an all-digit,
non-empty field parses as an integer (sign and float handling are omitted;
post-code fields are unsigned), anything else stays text. -/
def parse_int_cell (raw : String) : Option ℤ :=
  if raw.data ≠ [] ∧ raw.data.all Char.isDigit then
    some (raw.data.foldl (fun acc c => 10 * acc + ((c.toNat : ℤ) - 48)) 0)
  else none

/-- pandas `read_csv` conversion of one cell: under an explicit `str` dtype
the raw text is kept verbatim; under default inference an integer-looking
string is parsed as an integer (which drops leading zeros). -/
def read_csv_cell (dt : Dtype) (raw : String) : Cell :=
  match dt with
  | Dtype.str => Cell.text raw
  | Dtype.inferred =>
      match parse_int_cell raw with
      | some n => Cell.int n
      | none => Cell.text raw

/-- The dtype mapping `load_crash_data` passes to `pd.read_csv`
(src/main.py 275): `dtype={'Loc_Post_Code': str}` — the `Loc_Post_Code`
column is read as text, every other column keeps pandas inference. -/
def load_crash_data_dtype (col : String) : Dtype :=
  if col = "Loc_Post_Code" then Dtype.str else Dtype.inferred

/-- Two crash records that agree on every column except possibly
`Crash_Type`. -/
def agree_except_Crash_Type (r s : CrashRecord) : Prop :=
  r.Crash_Latitude_GDA94 = s.Crash_Latitude_GDA94 ∧
  r.Crash_Longitude_GDA94 = s.Crash_Longitude_GDA94 ∧
  r.Count_Casualty_Fatality = s.Count_Casualty_Fatality ∧
  r.Crash_Nature = s.Crash_Nature ∧
  r.Crash_Severity = s.Crash_Severity ∧
  r.Loc_Post_Code = s.Loc_Post_Code

/-- A sample fatal crash record (the end-to-end example of the spec, §8). -/
def crash_f1 : CrashRecord :=
  { Crash_Latitude_GDA94 := -26.5
    Crash_Longitude_GDA94 := 153.1
    Count_Casualty_Fatality := 2
    Crash_Nature := "Head-on"
    Crash_Type := "Multi-Vehicle"
    Crash_Severity := "Fatal"
    Loc_Post_Code := "4567" }

/-- A second sample fatal record. -/
def crash_f2 : CrashRecord :=
  { crash_f1 with Crash_Nature := "Hit pedestrian", Count_Casualty_Fatality := 1 }

/-- A third sample fatal record. -/
def crash_f3 : CrashRecord :=
  { crash_f1 with Crash_Nature := "Overturned", Count_Casualty_Fatality := 3 }

/-- A sample non-fatal record. -/
def crash_n1 : CrashRecord :=
  { crash_f1 with
      Crash_Severity := "Hospitalisation"
      Count_Casualty_Fatality := 0
      Crash_Nature := "Rear-end" }

/-- Another sample non-fatal record. -/
def crash_n2 : CrashRecord :=
  { crash_f1 with
      Crash_Severity := "Minor injury"
      Count_Casualty_Fatality := 0
      Crash_Nature := "Sideswipe" }

/-- Variant of `crash_f1` with only the `Crash_Type` column changed. -/
def crash_f1_alt_type : CrashRecord :=
  { crash_f1 with Crash_Type := "Single Vehicle" }

/-- Zipping equal-length column lists drawn from the same DataFrame is the
same as mapping over its rows. -/
theorem column_zip_eq_map (df : List CrashRecord) :
    column_zip df = df.map fun r =>
      (r.Crash_Latitude_GDA94, r.Crash_Longitude_GDA94,
       r.Count_Casualty_Fatality, r.Crash_Nature, r.Crash_Type) := by
  simp [column_zip, List.zip_map']

/-- The marker list of `fatal_fg`, expressed as a map over the rows. -/
theorem add_markers_fg_markers (df : List CrashRecord) :
    (add_markers_fg df).markers = df.map fun r =>
      { location := (r.Crash_Latitude_GDA94, r.Crash_Longitude_GDA94)
        radius := 10
        color := "red"
        fill := true
        fill_color := "red"
        fillOpacity := 0.25
        opacity := 0.25
        tooltip := toString r.Count_Casualty_Fatality ++ " Dead"
        popup := r.Crash_Nature } := by
  show (column_zip df).map _ = _
  rw [column_zip_eq_map, List.map_map]
  rfl

/-- The heat-map data, expressed as a map over the rows. -/
theorem add_heat_map_layer_data (df : List CrashRecord) :
    (add_heat_map_layer df).data = df.map fun r =>
      (r.Crash_Latitude_GDA94, r.Crash_Longitude_GDA94) := by
  show ((df.map _).zip (df.map _)).map _ = _
  rw [List.zip_map', List.map_map]
  rfl

/-- Mapping a function that is blind to `Crash_Type` over two pointwise
`Crash_Type`-variants of a dataset gives the same list. -/
theorem map_eq_of_forall2_agree {α : Type} (f : CrashRecord → α)
    (hf : ∀ r s, agree_except_Crash_Type r s → f r = f s)
    {F G : List CrashRecord} (h : List.Forall₂ agree_except_Crash_Type F G) :
    F.map f = G.map f := by
  induction h with
  | nil => rfl
  | cons hd _ ih => simp only [List.map_cons, hf _ _ hd, ih]

/-- C1: the fatal-crash filter returns exactly the records whose severity
field equals the string "Fatal" (exact, case-sensitive string equality),
kept in their original order (the result is a sublist of the input, and a
record is in the result iff it is in the input and is fatal); consequently
every record of the result has severity "Fatal" and the size of the result
is at most the size of the input. -/
theorem load_crash_data_filters_fatal (D : List CrashRecord) :
    load_crash_data D = D.filter (fun r => decide (r.Crash_Severity = "Fatal")) ∧
    List.Sublist (load_crash_data D) D ∧
    (∀ r : CrashRecord, r ∈ load_crash_data D ↔ r ∈ D ∧ r.Crash_Severity = "Fatal") ∧
    (∀ r ∈ load_crash_data D, r.Crash_Severity = "Fatal") ∧
    (load_crash_data D).length ≤ D.length := by
  refine ⟨rfl, List.filter_sublist D, ?_, ?_, List.length_filter_le _ D⟩
  · intro r
    simp [load_crash_data, List.mem_filter]
  · intro r hr
    simp only [load_crash_data, List.mem_filter] at hr
    exact beq_iff_eq.mp hr.2

/-- The round-trip example of the spec (§8): on a dataset of 3 fatal and 2
non-fatal records, the filter yields exactly the 3 fatal records in their
original order. -/
theorem load_crash_data_roundtrip_sample :
    load_crash_data [crash_f1, crash_n1, crash_f2, crash_n2, crash_f3] =
      [crash_f1, crash_f2, crash_f3] := rfl

/-- C2: the marker layer holds exactly one marker per filtered record; the
i-th marker carries the i-th record's coordinates as its location, its
fatality count in the hover tooltip, and its crash nature as the popup. -/
theorem add_markers_marker_correspondence (F : List CrashRecord) (i : ℕ)
    (r : CrashRecord) (h : F[i]? = some r) :
    (add_markers_fg F).markers.length = F.length ∧
    ∃ mk, (add_markers_fg F).markers[i]? = some mk ∧
      mk.location = (r.Crash_Latitude_GDA94, r.Crash_Longitude_GDA94) ∧
      mk.tooltip = toString r.Count_Casualty_Fatality ++ " Dead" ∧
      mk.popup = r.Crash_Nature := by
  rw [add_markers_fg_markers]
  refine ⟨by rw [List.length_map], ?_⟩
  rw [List.getElem?_map, h]
  exact ⟨_, rfl, rfl, rfl, rfl⟩

/-- Witness for C2 at a concrete one-record dataset. -/
theorem add_markers_marker_correspondence_witness :
    ([crash_f1][0]? = some crash_f1) ∧
    ((add_markers_fg [crash_f1]).markers.length = [crash_f1].length ∧
      ∃ mk, (add_markers_fg [crash_f1]).markers[0]? = some mk ∧
        mk.location = (crash_f1.Crash_Latitude_GDA94, crash_f1.Crash_Longitude_GDA94) ∧
        mk.tooltip = toString crash_f1.Count_Casualty_Fatality ++ " Dead" ∧
        mk.popup = crash_f1.Crash_Nature) :=
  ⟨rfl, add_markers_marker_correspondence [crash_f1] 0 crash_f1 rfl⟩

/-- C3: for every loaded dataset (empty included), the composed map holds
exactly two base tile layers — the street map shown, the monochrome
variant hidden — exactly three data layers in the order marker, cluster,
heat, and exactly one layer control. -/
theorem crashmap_layer_composition (F : List CrashRecord) :
    ∃ m, crashmap (some F) = Except.ok m ∧
      base_tile_layers m =
        [{ tiles := "OpenStreetMap", name := "Open Street Map", show_ := true },
         { tiles := "stamentoner", name := "Black/White Map", show_ := false }] ∧
      data_layer_kinds m = ["marker", "cluster", "heat"] ∧
      m.controls.length = 1 := by
  refine ⟨_, rfl, ?_, ?_, ?_⟩ <;>
    simp [crashmap, add_markers, add_clusters, add_heat_map, subscript_fatal,
      add_layer, base_tile_layers, data_layer_kinds]

/-- C4: on the empty filtered dataset all three layer builders succeed (no
exception), their layers hold zero elements, and all three layers are
still attached to the composed map. -/
theorem empty_dataset_layers :
    ∃ m, crashmap (some ([] : List CrashRecord)) = Except.ok m ∧
      (add_markers_fg []).markers = [] ∧
      (add_clusters_cluster []).markers = [] ∧
      (add_heat_map_layer []).data = [] ∧
      Layer.featureGroup (add_markers_fg []) ∈ m.layers ∧
      Layer.markerCluster (add_clusters_cluster []) ∈ m.layers ∧
      Layer.heatMap (add_heat_map_layer []) ∈ m.layers := by
  refine ⟨_, rfl, rfl, rfl, rfl, ?_, ?_, ?_⟩ <;>
    simp [crashmap, add_markers, add_clusters, add_heat_map, subscript_fatal,
      add_layer]

/-- C5, counterexample: with the module-level `fatal` still at its initial
`None` and no warm-up or startup load run, a `/crashmap` request does not
succeed — the handler fails on the unset dataset state. -/
theorem crashmap_before_warmup_not_ok :
    ¬ ∃ m, crashmap fatal = Except.ok m := by
  rintro ⟨m, hm⟩
  simp [crashmap, fatal, add_markers, subscript_fatal] at hm

/-- C5, amended: if no warm-up and no startup load has run, a `/crashmap`
request fails with a TypeError from subscripting the unset dataset state
(`None['Crash_Latitude_GDA94']`); there is no lazy load. -/
theorem crashmap_before_warmup_raises :
    crashmap fatal =
      Except.error "TypeError: NoneType object is not subscriptable" := rfl

/-- C6: a GET to the warm-up route does load and filter the dataset into
the global state, but the view function returns `None`, so Flask reports a
500 Internal Server Error rather than responding 200. -/
theorem warmup_loads_but_responds_500 (crashes : List CrashRecord) :
    (warmup crashes).1 = some (load_crash_data crashes) ∧
    flask_status (warmup crashes).2 = 500 :=
  ⟨rfl, rfl⟩

/-- C7: the cluster layer builder constructs, record for record, exactly
the markers of the marker layer builder (same location, radius, colors,
opacities, tooltip and popup), differing only in the container: a
`MarkerCluster` that starts hidden and is user-toggleable, while the flat
marker group starts shown. -/
theorem clusters_match_markers (F : List CrashRecord) :
    (add_clusters_cluster F).markers = (add_markers_fg F).markers ∧
    (add_clusters_cluster F).show_ = false ∧
    (add_clusters_cluster F).control = true ∧
    (add_markers_fg F).show_ = true :=
  ⟨rfl, rfl, rfl, rfl⟩

/-- C8: the `Loc_Post_Code` column is read under an explicit string dtype,
so every raw postal-code field is kept verbatim as text and never becomes
an integer — while pandas default inference (used when the dtype
constraint is absent) would turn "0123" into the integer 123. -/
theorem loc_post_code_read_as_text :
    (∀ raw : String,
      read_csv_cell (load_crash_data_dtype "Loc_Post_Code") raw = Cell.text raw) ∧
    (∀ raw : String, ∀ n : ℤ,
      read_csv_cell (load_crash_data_dtype "Loc_Post_Code") raw ≠ Cell.int n) ∧
    read_csv_cell Dtype.inferred "0123" = Cell.int 123 := by
  refine ⟨fun raw => rfl, fun raw n => by simp [read_csv_cell, load_crash_data_dtype], ?_⟩
  decide

/-- C10: the `Crash_Type` column never influences the composed map: two
filtered datasets that agree row by row on every column except
`Crash_Type` produce identical `/crashmap` results (hence identical
marker, cluster and heat layers). -/
theorem crashmap_ignores_Crash_Type (F G : List CrashRecord)
    (h : List.Forall₂ agree_except_Crash_Type F G) :
    crashmap (some F) = crashmap (some G) := by
  have hmk : (add_markers_fg F).markers = (add_markers_fg G).markers := by
    rw [add_markers_fg_markers, add_markers_fg_markers]
    refine map_eq_of_forall2_agree _ ?_ h
    rintro r s ⟨h1, h2, h3, h4, _, _⟩
    rw [h1, h2, h3, h4]
  have hfg : add_markers_fg F = add_markers_fg G :=
    congrArg (FeatureGroup.mk "Fatal Crashes" true) hmk
  have hcl : add_clusters_cluster F = add_clusters_cluster G :=
    congrArg (MarkerCluster.mk "Clustered Markers" false true) hmk
  have hd : (add_heat_map_layer F).data = (add_heat_map_layer G).data := by
    rw [add_heat_map_layer_data, add_heat_map_layer_data]
    refine map_eq_of_forall2_agree _ ?_ h
    rintro r s ⟨h1, h2, _, _, _, _⟩
    rw [h1, h2]
  have hht : add_heat_map_layer F = add_heat_map_layer G :=
    congrArg (fun d => HeatMap.mk d "Heat Map" false true 0.5) hd
  simp only [crashmap, add_markers, add_clusters, add_heat_map, subscript_fatal]
  rw [hfg, hcl, hht]

/-- Witness for C10: two concrete one-record datasets differing only in
`Crash_Type` yield the same composed map. -/
theorem crashmap_ignores_Crash_Type_witness :
    List.Forall₂ agree_except_Crash_Type [crash_f1] [crash_f1_alt_type] ∧
    crashmap (some [crash_f1]) = crashmap (some [crash_f1_alt_type]) := by
  have h : List.Forall₂ agree_except_Crash_Type [crash_f1] [crash_f1_alt_type] :=
    List.Forall₂.cons ⟨rfl, rfl, rfl, rfl, rfl, rfl⟩ List.Forall₂.nil
  exact ⟨h, crashmap_ignores_Crash_Type _ _ h⟩

/-- C9: the fatal-crash filter is idempotent:
`load_crash_data (load_crash_data D) = load_crash_data D`. -/
theorem load_crash_data_idempotent (D : List CrashRecord) :
    load_crash_data (load_crash_data D) = load_crash_data D := by
  simp [load_crash_data, List.filter_filter]

end CrashMap
